import Mathlib

/-!
Verification model of the RiskApprove repository.

The repository consists of two Flask microservices:

* `src/ml-service/app.py` — fetches historical close prices for stock
  symbols (via yfinance) and computes technical indicators (SMA, annualized
  volatility, expected return, a risk score and trend/signal labels),
  falling back to synthetic mock data on certain failures.
* `src/rag-service/app.py` — checks a portfolio allocation against
  regulation text retrieved by a similarity search, applying keyword and
  numeric-threshold rules.

This file shallowly embeds both services.  External effects (the yfinance
data calls, the random draws used for mock data, the vector store and its
similarity search) are modelled as explicit inputs; machine floats are
idealised as real numbers (for the price pipeline) and rationals (for the
compliance rules), with pandas NaN propagation modelled by `Option`.
-/

namespace RiskApprove

/-! ## JSON values and the relevant Python semantics -/

/-- JSON values, as delivered by Flask's `request.get_json()`. -/
inductive Json where
  | null
  | bool (b : Bool)
  | num (q : ℚ)
  | str (s : String)
  | arr (elems : List Json)
  | obj (fields : List (String × Json))

/-- Python truthiness of a JSON value (the `not data` guards in the handlers):
`None`, `False`, `0`, and empty strings/lists/dicts are falsy. -/
def Json.falsy : Json → Bool
  | .null => true
  | .bool b => !b
  | .num q => q == 0
  | .str s => s == ""
  | .arr xs => xs.isEmpty
  | .obj kvs => kvs.isEmpty

/-- Char-list helper: does the second list start with the first? -/
def matchesAt : List Char → List Char → Bool
  | [], _ => true
  | _ :: _, [] => false
  | a :: as, b :: bs => a == b && matchesAt as bs

/-- Char-list helper: does the needle occur somewhere in the haystack? -/
def hasSubList (needle : List Char) : List Char → Bool
  | [] => needle.isEmpty
  | c :: rest => matchesAt needle (c :: rest) || hasSubList needle rest

/-- Python substring test `needle in hay` for strings. -/
def strHasSub (hay needle : String) : Bool :=
  hasSubList needle.toList hay.toList

/-- Python `key in data` for a string key.  Dicts test key membership,
lists test element membership (only string elements can equal a string),
strings test substring membership; any other value raises `TypeError`,
modelled as `.error` and turned into a 500 by the handlers' `except`. -/
def Json.pyHasKey : Json → String → Except Unit Bool
  | .obj kvs, k => .ok (kvs.any (fun kv => kv.1 == k))
  | .arr xs, k => .ok (xs.any (fun j => match j with | .str s => s == k | _ => false))
  | .str s, k => .ok (strHasSub s k)
  | _, _ => .error ()

/-- Python `data[key]` with a string key: dict lookup (`KeyError` when the
key is missing); indexing any non-dict value with a string raises
`TypeError`.  Both errors propagate to the handler's `except` (a 500). -/
def Json.getStrItem : Json → String → Except Unit Json
  | .obj kvs, k =>
    match kvs.lookup k with
    | some v => .ok v
    | none => .error ()
  | _, _ => .error ()

/-! ## ML service (`src/ml-service/app.py`)

Price series are lists of real closing prices, oldest first.  A pandas
series entry that is NaN is modelled as `none`. -/

/-- Model of `hist['Close'].pct_change()` (line 111): the first entry is NaN, and
entry `i` (for `i ≥ 1`) is `(close[i] - close[i-1]) / close[i-1]`. -/
noncomputable def pct_change : List ℝ → List (Option ℝ)
  | [] => []
  | x :: xs => none :: (List.zip (x :: xs) xs).map (fun p => some ((p.2 - p.1) / p.1))

/-- The non-NaN entries of a series (pandas aggregation functions skip NaN). -/
def validValues (s : List (Option ℝ)) : List ℝ :=
  s.filterMap id

/-- Model of `Series.mean()`: the mean of the non-NaN entries, NaN when there are none. -/
noncomputable def seriesMean (s : List (Option ℝ)) : Option ℝ :=
  if (validValues s).isEmpty then none
  else some ((validValues s).sum / (validValues s).length)

/-- The sample variance (denominator `n - 1`, pandas' default `ddof=1`). -/
noncomputable def sampleVariance (v : List ℝ) : ℝ :=
  ((v.map (fun x => (x - v.sum / v.length) ^ 2)).sum) / ((v.length : ℝ) - 1)

/-- Model of `Series.std()`: sample standard deviation of the non-NaN entries
(`ddof=1`), NaN when fewer than two values remain. -/
noncomputable def seriesStd (s : List (Option ℝ)) : Option ℝ :=
  if (validValues s).length < 2 then none
  else some (Real.sqrt (sampleVariance (validValues s)))

/-- Model of `calculate_sma` (lines 22-24): `data.rolling(window=window).mean()`.
Entry `i` is NaN while fewer than `window` observations are available, and
otherwise the mean of entries `i - window + 1 .. i`. -/
noncomputable def calculate_sma (data : List ℝ) (window : ℕ) : List (Option ℝ) :=
  (List.range data.length).map (fun i =>
    if i + 1 < window then none
    else some (((data.take (i + 1)).drop (i + 1 - window)).sum / (window : ℝ)))

/-- Model of `series.iloc[-1]` on a series with possible NaNs.  The handlers only
apply this to non-empty series (the `[]` case is unreachable). -/
def ilocLast (s : List (Option ℝ)) : Option ℝ :=
  s.getLast?.getD none

open Classical in
/-- Trend classification (lines 129-134): NEUTRAL if either SMA is NaN,
otherwise BULLISH when SMA20 > SMA50 and BEARISH otherwise. -/
noncomputable def mkTrend (s20 s50 : Option ℝ) : String :=
  match s20, s50 with
  | some a, some b => if a > b then "BULLISH" else "BEARISH"
  | _, _ => "NEUTRAL"

/-- Risk score (line 137): `min(100, max(0, volatility * 100))`.  When the
volatility is NaN, Python's `max(0, nan)` keeps its first argument (NaN
comparisons are false), so the score is `min(100, 0) = 0`. -/
noncomputable def mkRiskScore (vol : Option ℝ) : ℝ :=
  match vol with
  | none => 0
  | some v => min 100 (max 0 (v * 100))

open Classical in
/-- Signal generation (lines 140-145).  A NaN expected return compares
false against both thresholds. -/
noncomputable def mkSignal (trend : String) (er : Option ℝ) : String :=
  if trend = "BULLISH" ∧ (match er with | some e => e > 0.05 | none => False) then "BUY"
  else if trend = "BEARISH" ∨ (match er with | some e => e < -0.05 | none => False) then "SELL"
  else "HOLD"

/-- The per-symbol prediction record (the dict built at lines 54-66 and
147-158).  `none` in an `Option ℝ` field models NaN / JSON null. -/
structure Prediction where
  symbol : Json
  expectedReturn : Option ℝ
  volatility : Option ℝ
  riskScore : ℝ
  trend : String
  signal : String
  currentPrice : ℝ
  sma20 : Option ℝ
  sma50 : Option ℝ
  dataPoints : ℕ
  note : Option String

/-- The random draws consumed by `generate_mock_prediction` (lines 35-52),
made explicit.  No range constraints are assumed. -/
structure MockParams where
  base_return : ℝ
  base_volatility : ℝ
  trend_choice : Fin 3
  mock_price : ℝ

/-- Model of `random.choice(["BULLISH", "BEARISH", "NEUTRAL"])`. -/
def chooseTrend : Fin 3 → String
  | 0 => "BULLISH"
  | 1 => "BEARISH"
  | 2 => "NEUTRAL"

/-- Model of `generate_mock_prediction` (lines 27-66). -/
noncomputable def generate_mock_prediction (symbol : Json) (m : MockParams) : Prediction :=
  let risk_score := min 100 (max 0 (m.base_volatility * 200))
  let trend := chooseTrend m.trend_choice
  let signal := if trend == "BULLISH" then "BUY" else if trend == "BEARISH" then "SELL" else "HOLD"
  { symbol := symbol
    expectedReturn := some m.base_return
    volatility := some m.base_volatility
    riskScore := risk_score
    trend := trend
    signal := signal
    currentPrice := m.mock_price
    sma20 := some (m.mock_price * 0.98)
    sma50 := some (m.mock_price * 0.95)
    dataPoints := 252
    note := some "Mock data - yfinance unavailable" }

/-- The indicator computation of lines 110-158, applied to a fetched
series of closing prices (non-empty by the guard at line 106). -/
noncomputable def indicatorRecord (symbol : Json) (hist : List ℝ) : Prediction :=
  let dailyReturn := pct_change hist
  let volatility := (seriesStd dailyReturn).map (fun s => s * Real.sqrt 252)
  let expected_return := (seriesMean dailyReturn).map (fun m => m * 252)
  let sma20 := ilocLast (calculate_sma hist 20)
  let sma50 := ilocLast (calculate_sma hist 50)
  { symbol := symbol
    expectedReturn := expected_return
    volatility := volatility
    riskScore := mkRiskScore volatility
    trend := mkTrend sma20 sma50
    signal := mkSignal (mkTrend sma20 sma50) expected_return
    currentPrice := hist.getLast?.getD 0
    sma20 := sma20
    sma50 := sma50
    dataPoints := hist.length
    note := none }

/-- Outcome of one `ticker.history(...)` call: it raises, or it returns a
(possibly empty) frame of closing prices. -/
inductive Attempt where
  | raises
  | returns (closes : List ℝ)

/-- The external behaviour relevant to one symbol: whether `yf.Ticker`
itself raises (caught by the outer handler at line 160), the outcomes of
the three `history` calls (lines 87, 96, 101), and the random draws used
if mock data is generated. -/
structure SymbolEnv where
  tickerRaises : Bool
  a1 : Attempt
  a2 : Attempt
  a3 : Attempt
  mock : MockParams

/-- The fallback chain after the first `history` attempt fails: the date
range call (line 96), then the 6-month call (line 101); when the third
call also raises the function returns `None` (line 104). -/
def fetchTail (a2 a3 : Attempt) : Option (List ℝ) :=
  match a2 with
  | .returns c => some c
  | .raises =>
    match a3 with
    | .returns c => some c
    | .raises => none

/-- The net result of the fetch cascade (lines 82-104): the first attempt
is used when it returns non-empty data (an empty frame raises `ValueError`
at line 89, caught at line 90); otherwise control falls to `fetchTail`. -/
def fetchHistory (a1 a2 a3 : Attempt) : Option (List ℝ) :=
  match a1 with
  | .returns c => if c.isEmpty then fetchTail a2 a3 else some c
  | .raises => fetchTail a2 a3

/-- Model of `calculate_technical_indicators` (lines 69-164).  When `yf.Ticker`
raises, the outer `except` (line 160) substitutes mock data; when all
three `history` calls raise, the result is `None` (line 104); when the
fetched frame is empty, mock data is substituted (line 108); otherwise the
indicators are computed.  The post-fetch arithmetic cannot raise in this
idealised model, so the outer `except` is only reachable via the `Ticker`
constructor. -/
noncomputable def calculate_technical_indicators (symbol : Json) (env : SymbolEnv) :
    Option Prediction :=
  if env.tickerRaises then some (generate_mock_prediction symbol env.mock)
  else
    match fetchHistory env.a1 env.a2 env.a3 with
    | none => none
    | some hist =>
      if hist.isEmpty then some (generate_mock_prediction symbol env.mock)
      else some (indicatorRecord symbol hist)

/-! ### The `/predict` and `/predict/single` endpoints -/

/-- One entry of the `predictions` list: a prediction record, or the
`{"symbol": ..., "error": "Failed to fetch or process data"}` record built
at lines 202-205 when `calculate_technical_indicators` returned `None`. -/
inductive PredictItem where
  | pred (p : Prediction)
  | failed (symbol : Json)

/-- The symbol an entry of the `predictions` list reports. -/
def PredictItem.symbolOf : PredictItem → Json
  | .pred p => p.symbol
  | .failed s => s

/-- Response of `POST /predict`: 200 with a predictions list, 400 with an
error message, or 500 (an uncaught exception reached the handler's
`except`). -/
inductive PredictResponse where
  | ok (predictions : List PredictItem)
  | badRequest (message : String)
  | serverError

/-- The body of the loop at lines 195-205. -/
noncomputable def processStock (env : Json → SymbolEnv) (symbol : Json) : PredictItem :=
  match calculate_technical_indicators symbol (env symbol) with
  | some p => .pred p
  | none => .failed symbol

/-- The `/predict` handler (lines 173-214).  `body` is the result of
`request.get_json()` (`none` models an absent body); `env` gives the
external behaviour for each symbol. -/
noncomputable def predict (body : Option Json) (env : Json → SymbolEnv) : PredictResponse :=
  match body with
  | none => .badRequest "Missing stocks field in request"
  | some data =>
    if data.falsy then .badRequest "Missing stocks field in request"
    else
      match data.pyHasKey "stocks" with
      | .error _ => .serverError
      | .ok false => .badRequest "Missing stocks field in request"
      | .ok true =>
        match data.getStrItem "stocks" with
        | .error _ => .serverError
        | .ok (.arr stocks) =>
          if stocks.isEmpty then .badRequest "Stocks must be a non-empty list"
          else .ok (stocks.map (processStock env))
        | .ok _ => .badRequest "Stocks must be a non-empty list"

/-- Response of `POST /predict/single`. -/
inductive SingleResponse where
  | ok (p : Prediction)
  | badRequest (message : String)
  | notFound (message : String)
  | serverError

/-- The `/predict/single` handler (lines 217-243).  A returned prediction
dict is non-empty, hence truthy, so `if prediction:` distinguishes exactly
`Some` from `None`. -/
noncomputable def predict_single (body : Option Json) (env : Json → SymbolEnv) : SingleResponse :=
  match body with
  | none => .badRequest "Missing symbol field in request"
  | some data =>
    if data.falsy then .badRequest "Missing symbol field in request"
    else
      match data.pyHasKey "symbol" with
      | .error _ => .serverError
      | .ok false => .badRequest "Missing symbol field in request"
      | .ok true =>
        match data.getStrItem "symbol" with
        | .error _ => .serverError
        | .ok symbol =>
          match calculate_technical_indicators symbol (env symbol) with
          | some p => .ok p
          | none => .notFound "Failed to process symbol"

/-! ## RAG compliance service (`src/rag-service/app.py`) -/

/-- A retrieved document: its text and the `source` entry of its metadata
(`none` models a missing key, defaulted to `'Unknown'` at line 235). -/
structure Doc where
  page_content : String
  source : Option String

/-- The outcome of the guarded block of `check_compliance` seen from
outside: either `similarity_search_with_score` returns scored documents,
or some exception is raised inside the `try` (lines 225-318) — the search
call failing, or a `TypeError` from comparing malformed inputs — landing
in the handler at line 320. -/
inductive SearchOutcome where
  | raises
  | returns (docs : List (Doc × ℚ))

/-- The data interpolated into a violation's `message` f-string.  Distinct
constructors correspond to distinct message templates (which can never
produce equal strings), and within one call every `concentration` message
is built from the same numbers, so string equality of messages coincides
with equality of these values. -/
inductive VMessage where
  | concentration (maxAlloc : ℚ) (profile : String) (threshold : ℚ)
  | allocation (total : ℚ)
  | systemError
  deriving DecidableEq

/-- A violation record (`type`, `message`, `severity`, `source`). -/
structure Violation where
  vtype : String
  message : VMessage
  severity : String
  source : String

/-- A warning entry.  The uninitialized-store branch appends a bare string
(line 211); the other warnings are dicts, carried here with the data their
messages interpolate. -/
inductive Warning where
  | plain (text : String)
  | riskLimit (source : String)
  | diversification (count : ℕ)
  | riskProfile (stocks : List String)

/-- A citation record (lines 237-241). -/
structure Citation where
  text : String
  source : String
  relevance_score : ℚ

/-- The result record of `check_compliance`. -/
structure ComplianceResult where
  compliant : Bool
  violations : List Violation
  warnings : List Warning
  citations : List Citation

/-- Model of `Path(source).name`: the final path component. -/
def pathName (s : String) : String :=
  (s.splitOn "/").getLastD s

/-- Model of `max(portfolio.values()) if portfolio else 0` (line 246). -/
def max_allocation (portfolio : List (String × ℚ)) : ℚ :=
  match portfolio.map Prod.snd with
  | [] => 0
  | v :: vs => vs.foldl max v

/-- Model of `sum(portfolio.values()) if portfolio else 0` (line 275). -/
def total_allocation (portfolio : List (String × ℚ)) : ℚ :=
  (portfolio.map Prod.snd).sum

/-- Model of `thresholds.get(risk_profile.upper(), 0.25)` (lines 250-255). -/
def thresholdFor (risk_profile : String) : ℚ :=
  let u := risk_profile.toUpper
  if u == "LOW" then 0.15
  else if u == "MEDIUM" then 0.25
  else if u == "HIGH" then 0.35
  else 0.25

/-- The citation built for one retrieved document (lines 237-241):
truncated text, the file name of the source (`'Unknown'` kept as is), and
the distance converted to a similarity `1 / (1 + score)`. -/
def citationOf (doc : Doc) (score : ℚ) : Citation :=
  let source := doc.source.getD "Unknown"
  { text := doc.page_content.take 500
    source := if source == "Unknown" then source else pathName source
    relevance_score := 1 / (1 + score) }

/-- The CONCENTRATION violations collected by the document loop
(lines 248-263): one per retrieved document whose lowercased text mentions
`concentration` or `single stock`, when the largest allocation exceeds the
risk profile's threshold. -/
def docViolations (portfolio : List (String × ℚ)) (risk_profile : String)
    (docs : List (Doc × ℚ)) : List Violation :=
  docs.filterMap (fun dc =>
    let content_lower := dc.1.page_content.toLower
    if strHasSub content_lower "concentration" || strHasSub content_lower "single stock" then
      if max_allocation portfolio > thresholdFor risk_profile then
        some { vtype := "CONCENTRATION"
               message := .concentration (max_allocation portfolio) risk_profile
                 (thresholdFor risk_profile)
               severity := "HIGH"
               source := pathName (dc.1.source.getD "Unknown") }
      else none
    else none)

/-- The RISK_LIMIT warnings collected by the document loop (lines 266-272). -/
def docWarnings (risk_profile : String) (docs : List (Doc × ℚ)) : List Warning :=
  docs.filterMap (fun dc =>
    let content_lower := dc.1.page_content.toLower
    if risk_profile.toUpper == "LOW" && strHasSub content_lower "high risk" &&
        (strHasSub content_lower "limit" || strHasSub content_lower "maximum") then
      some (.riskLimit (pathName (dc.1.source.getD "Unknown")))
    else none)

/-- The ALLOCATION violation (lines 275-282), added when the total
allocation differs from 100% by more than one percentage point. -/
def allocationViolations (portfolio : List (String × ℚ)) : List Violation :=
  if |total_allocation portfolio - 1| > 0.01 then
    [{ vtype := "ALLOCATION"
       message := .allocation (total_allocation portfolio)
       severity := "MEDIUM"
       source := "System" }]
  else []

/-- Model of `metrics.get('riskScore', 0) > 70` guarded by `isinstance(metrics, dict)`
(line 296).  A missing key defaults to 0; a non-numeric value would raise
`TypeError` in the source, a case modelled by `SearchOutcome.raises`. -/
def metricIsHighRisk (j : Json) : Bool :=
  match j with
  | .obj kvs =>
    match kvs.lookup "riskScore" with
    | some (.num q) => q > 70
    | _ => false
  | _ => false

/-- The stocks flagged for a LOW risk profile (lines 294-297). -/
def highRiskStocks (risk_metrics : List (String × Json)) : List String :=
  risk_metrics.filterMap (fun sm => if metricIsHighRisk sm.2 then some sm.1 else none)

/-- Duplicate-violation removal (lines 305-311): keep the first violation
for each message. -/
def dedupeGo (seen : List VMessage) : List Violation → List Violation
  | [] => []
  | v :: vs =>
    if v.message ∈ seen then dedupeGo seen vs
    else v :: dedupeGo (v.message :: seen) vs

/-- Model of `unique_violations` (lines 305-311). -/
def removeDuplicateViolations (vs : List Violation) : List Violation :=
  dedupeGo [] vs

/-- Model of `check_compliance` (lines 202-327).  `store = none` models the
uninitialized global `vector_store`; `some .raises` models an exception
inside the `try`; `some (.returns docs)` models a successful similarity
search returning `docs` (the call asks for `k=5`, but nothing below
depends on the count). -/
def check_compliance (store : Option SearchOutcome) (portfolio : List (String × ℚ))
    (risk_profile : String) (risk_metrics : List (String × Json)) : ComplianceResult :=
  match store with
  | none =>
    { compliant := true
      violations := []
      warnings := [.plain "Vector store not initialized"]
      citations := [] }
  | some .raises =>
    { compliant := false
      violations := [{ vtype := "SYSTEM_ERROR", message := .systemError,
                       severity := "HIGH", source := "System" }]
      warnings := []
      citations := [] }
  | some (.returns docs) =>
    let citations := docs.map (fun dc => citationOf dc.1 dc.2)
    let violations := docViolations portfolio risk_profile docs ++ allocationViolations portfolio
    let warnings := docWarnings risk_profile docs
      ++ (if portfolio.length < 3 then [Warning.diversification portfolio.length] else [])
      ++ (if risk_profile.toUpper == "LOW" then
            if (highRiskStocks risk_metrics).isEmpty then []
            else [Warning.riskProfile (highRiskStocks risk_metrics)]
          else [])
    let unique_violations := removeDuplicateViolations violations
    { compliant := unique_violations.isEmpty
      violations := unique_violations
      warnings := warnings
      citations := citations.take 3 }

/-- Response of `POST /compliance/check`. -/
inductive ComplianceResponse where
  | ok (result : ComplianceResult)
  | badRequest (message : String)
  | serverError

/-- Model of `data.get(key, default)` in the handler (lines 354-356): `.get` on a
non-dict raises `AttributeError`, which the handler's `except` turns into
a 500. -/
def Json.dictGet : Json → String → Json → Except Unit Json
  | .obj kvs, k, dflt => .ok ((kvs.lookup k).getD dflt)
  | _, _, _ => .error ()

/-- Extraction of the portfolio weights from the request JSON.  Non-numeric
weights would raise a `TypeError` inside `check_compliance`'s guarded
block in the source (modelled by `SearchOutcome.raises`); this extraction
keeps the numeric entries. -/
def portfolioOfJson : Json → List (String × ℚ)
  | .obj kvs => kvs.filterMap (fun kv =>
      match kv.2 with
      | .num q => some (kv.1, q)
      | _ => none)
  | _ => []

/-- Extraction of the risk metrics mapping from the request JSON. -/
def riskMetricsOfJson : Json → List (String × Json)
  | .obj kvs => kvs
  | _ => []

/-- Extraction of the risk profile string.  A non-string value would raise
`AttributeError` at `risk_profile.upper()` inside the guarded block of the
source (modelled by `SearchOutcome.raises`). -/
def riskProfileOfJson : Json → String
  | .str s => s
  | _ => "MEDIUM"

/-- The `/compliance/check` handler (lines 342-364). -/
def compliance_check (body : Option Json) (store : Option SearchOutcome) : ComplianceResponse :=
  match body with
  | none => .badRequest "Missing request body"
  | some data =>
    if data.falsy then .badRequest "Missing request body"
    else
      match data.dictGet "portfolio" (.obj []), data.dictGet "riskProfile" (.str "MEDIUM"),
          data.dictGet "riskMetrics" (.obj []) with
      | .ok p, .ok rp, .ok rm =>
        .ok (check_compliance store (portfolioOfJson p) (riskProfileOfJson rp)
          (riskMetricsOfJson rm))
      | _, _, _ => .serverError

/-! ## Spec-side definitions (for the refinement claim C7)

These follow the glossary wording — 'Volatility: annualized standard
deviation of daily returns' and the claim's 'standard deviation of
day-over-day percentage changes multiplied by sqrt(252)' — independently
of the pandas pipeline above. -/

/-- Spec-side daily returns: the day-over-day percentage changes of the
closing-price series. -/
noncomputable def specDailyReturns (closes : List ℝ) : List ℝ :=
  (closes.zip closes.tail).map (fun p => (p.2 - p.1) / p.1)

/-- Spec-side sample standard deviation of a list of values. -/
noncomputable def specStdDev (v : List ℝ) : ℝ :=
  Real.sqrt (((v.map (fun x => (x - v.sum / v.length) ^ 2)).sum) / ((v.length : ℝ) - 1))

/-- Spec-side annualized volatility: the standard deviation of the daily
returns multiplied by the square root of 252. -/
noncomputable def specAnnualizedVolatility (closes : List ℝ) : ℝ :=
  specStdDev (specDailyReturns closes) * Real.sqrt 252

/-! ## Concrete inputs used by the witness theorems -/

/-- A fixed set of mock draws. -/
noncomputable def mock0 : MockParams := ⟨0, 0, 0, 0⟩

/-- Environment in which `yf.Ticker` itself raises. -/
noncomputable def envMockOnly : SymbolEnv := ⟨true, .raises, .raises, .raises, mock0⟩

/-- Environment in which all three `history` calls raise. -/
noncomputable def envAllFail : SymbolEnv := ⟨false, .raises, .raises, .raises, mock0⟩

/-- Environment in which the first `history` call returns `closes`. -/
noncomputable def envData (closes : List ℝ) : SymbolEnv :=
  ⟨false, .returns closes, .raises, .raises, mock0⟩

/-! ## General lemmas about the embedding -/

lemma lookup_some_any (kvs : List (String × Json)) (k : String) (j : Json)
    (h : kvs.lookup k = some j) : kvs.any (fun kv => kv.1 == k) = true := by
  induction kvs with
  | nil => simp [List.lookup] at h
  | cons hd tl ih =>
    obtain ⟨k1, v1⟩ := hd
    by_cases hk : k = k1
    · subst hk; simp
    · rw [List.lookup, beq_eq_false_iff_ne.mpr hk] at h
      simp only [List.any_cons, Bool.or_eq_true]
      exact Or.inr (ih h)

lemma lookup_none_any (kvs : List (String × Json)) (k : String)
    (h : kvs.lookup k = none) : kvs.any (fun kv => kv.1 == k) = false := by
  induction kvs with
  | nil => simp
  | cons hd tl ih =>
    obtain ⟨k1, v1⟩ := hd
    by_cases hk : k = k1
    · subst hk; rw [List.lookup] at h; simp at h
    · rw [List.lookup, beq_eq_false_iff_ne.mpr hk] at h
      simp only [List.any_cons, Bool.or_eq_false_iff]
      exact ⟨beq_eq_false_iff_ne.mpr (Ne.symm hk), ih h⟩

lemma ctis_symbol (sym : Json) (env : SymbolEnv) (p : Prediction)
    (h : calculate_technical_indicators sym env = some p) : p.symbol = sym := by
  unfold calculate_technical_indicators at h
  by_cases ht : env.tickerRaises
  · rw [if_pos ht] at h
    injection h with h
    subst h; rfl
  · rw [if_neg ht] at h
    cases hf : fetchHistory env.a1 env.a2 env.a3 with
    | none => rw [hf] at h; cases h
    | some hist =>
      rw [hf] at h
      dsimp only at h
      by_cases he : hist.isEmpty
      · rw [if_pos he] at h
        injection h with h
        subst h; rfl
      · rw [if_neg he] at h
        injection h with h
        subst h; rfl

lemma mkRiskScore_nonneg (v : Option ℝ) : 0 ≤ mkRiskScore v := by
  cases v with
  | none => simp [mkRiskScore]
  | some x =>
    simp only [mkRiskScore]
    exact le_min (by norm_num) (le_max_left 0 (x * 100))

lemma mkRiskScore_le (v : Option ℝ) : mkRiskScore v ≤ 100 := by
  cases v with
  | none => simp [mkRiskScore]
  | some x => simp only [mkRiskScore]; exact min_le_left _ _

lemma mkTrend_mem (a b : Option ℝ) :
    mkTrend a b = "BULLISH" ∨ mkTrend a b = "BEARISH" ∨ mkTrend a b = "NEUTRAL" := by
  cases a with
  | none => right; right; rfl
  | some x =>
    cases b with
    | none => right; right; rfl
    | some y =>
      simp only [mkTrend]
      split
      · left; rfl
      · right; left; rfl

lemma mkSignal_mem (t : String) (er : Option ℝ) :
    mkSignal t er = "BUY" ∨ mkSignal t er = "SELL" ∨ mkSignal t er = "HOLD" := by
  simp only [mkSignal]
  split
  · left; rfl
  · split
    · right; left; rfl
    · right; right; rfl

lemma mock_trend_mem (i : Fin 3) :
    chooseTrend i = "BULLISH" ∨ chooseTrend i = "BEARISH" ∨ chooseTrend i = "NEUTRAL" := by
  fin_cases i <;> simp [chooseTrend]

lemma gmp_invariants (sym : Json) (m : MockParams) :
    (0 ≤ (generate_mock_prediction sym m).riskScore ∧
      (generate_mock_prediction sym m).riskScore ≤ 100) ∧
    ((generate_mock_prediction sym m).trend = "BULLISH" ∨
      (generate_mock_prediction sym m).trend = "BEARISH" ∨
      (generate_mock_prediction sym m).trend = "NEUTRAL") ∧
    ((generate_mock_prediction sym m).signal = "BUY" ∨
      (generate_mock_prediction sym m).signal = "SELL" ∨
      (generate_mock_prediction sym m).signal = "HOLD") := by
  unfold generate_mock_prediction
  dsimp only
  refine ⟨⟨le_min (by norm_num) (le_max_left _ _), min_le_left _ _⟩,
    mock_trend_mem m.trend_choice, ?_⟩
  split
  · left; rfl
  · split
    · right; left; rfl
    · right; right; rfl

lemma indicator_invariants (sym : Json) (hist : List ℝ) :
    (0 ≤ (indicatorRecord sym hist).riskScore ∧ (indicatorRecord sym hist).riskScore ≤ 100) ∧
    ((indicatorRecord sym hist).trend = "BULLISH" ∨
      (indicatorRecord sym hist).trend = "BEARISH" ∨
      (indicatorRecord sym hist).trend = "NEUTRAL") ∧
    ((indicatorRecord sym hist).signal = "BUY" ∨
      (indicatorRecord sym hist).signal = "SELL" ∨
      (indicatorRecord sym hist).signal = "HOLD") := by
  unfold indicatorRecord
  dsimp only
  exact ⟨⟨mkRiskScore_nonneg _, mkRiskScore_le _⟩, mkTrend_mem _ _, mkSignal_mem _ _⟩

lemma ctis_cases (sym : Json) (env : SymbolEnv) (p : Prediction)
    (h : calculate_technical_indicators sym env = some p) :
    p = generate_mock_prediction sym env.mock ∨
      ∃ hist : List ℝ, hist ≠ [] ∧ p = indicatorRecord sym hist := by
  unfold calculate_technical_indicators at h
  by_cases ht : env.tickerRaises
  · rw [if_pos ht] at h
    injection h with h
    exact Or.inl h.symm
  · rw [if_neg ht] at h
    cases hf : fetchHistory env.a1 env.a2 env.a3 with
    | none => rw [hf] at h; cases h
    | some hist =>
      rw [hf] at h
      dsimp only at h
      by_cases he : hist.isEmpty
      · rw [if_pos he] at h
        injection h with h
        exact Or.inl h.symm
      · rw [if_neg he] at h
        injection h with h
        exact Or.inr ⟨hist, fun hn => he (by simp [hn]), h.symm⟩

lemma predict_single_obj (kvs : List (String × Json)) (env : Json → SymbolEnv) (sym : Json)
    (h : kvs.lookup "symbol" = some sym) :
    predict_single (some (.obj kvs)) env =
      (match calculate_technical_indicators sym (env sym) with
       | some p => .ok p
       | none => .notFound "Failed to process symbol") := by
  have hkvs : kvs.isEmpty = false := by
    cases kvs with
    | nil => simp [List.lookup] at h
    | cons hd tl => rfl
  have hhk : (Json.obj kvs).pyHasKey "symbol" = .ok true := by
    simp only [Json.pyHasKey, lookup_some_any kvs _ _ h]
  have hgi : (Json.obj kvs).getStrItem "symbol" = .ok sym := by
    simp only [Json.getStrItem, h]
  simp only [predict_single, Json.falsy, hkvs, Bool.false_eq_true, if_false, hhk, hgi]

lemma predict_obj_ok (kvs : List (String × Json)) (env : Json → SymbolEnv)
    (stocks : List Json) (h : kvs.lookup "stocks" = some (.arr stocks)) (hne : stocks ≠ []) :
    predict (some (.obj kvs)) env = .ok (stocks.map (processStock env)) := by
  have hkvs : kvs.isEmpty = false := by
    cases kvs with
    | nil => simp [List.lookup] at h
    | cons hd tl => rfl
  have hhk : (Json.obj kvs).pyHasKey "stocks" = .ok true := by
    simp only [Json.pyHasKey, lookup_some_any kvs _ _ h]
  have hgi : (Json.obj kvs).getStrItem "stocks" = .ok (.arr stocks) := by
    simp only [Json.getStrItem, h]
  have hse : stocks.isEmpty = false := by
    cases stocks with
    | nil => exact absurd rfl hne
    | cons hd tl => rfl
  simp only [predict, Json.falsy, hkvs, Bool.false_eq_true, if_false, hhk, hgi, hse]

/-! ## The claims -/

/-- Claim C8: every result of `check_compliance` has its `compliant` flag
true exactly when its `violations` list is empty, in the
uninitialized-store branch, the normal branch (after duplicate removal),
and the internal-error branch alike. -/
theorem compliant_iff_no_violations (store : Option SearchOutcome)
    (portfolio : List (String × ℚ)) (risk_profile : String)
    (risk_metrics : List (String × Json)) :
    ((check_compliance store portfolio risk_profile risk_metrics).compliant = true ↔
      (check_compliance store portfolio risk_profile risk_metrics).violations = []) := by
  match store with
  | none => simp [check_compliance]
  | some .raises => simp [check_compliance]
  | some (.returns docs) =>
    simp [check_compliance, List.isEmpty_iff]

/-- Claim C10: every result of `check_compliance` carries at most 3
citation records, and the uninitialized-store and internal-error branches
return an empty citations list. -/
theorem citations_at_most_three (store : Option SearchOutcome)
    (portfolio : List (String × ℚ)) (risk_profile : String)
    (risk_metrics : List (String × Json)) :
    (check_compliance store portfolio risk_profile risk_metrics).citations.length ≤ 3 ∧
    (check_compliance none portfolio risk_profile risk_metrics).citations = [] ∧
    (check_compliance (some .raises) portfolio risk_profile risk_metrics).citations = [] := by
  refine ⟨?_, rfl, rfl⟩
  match store with
  | none => simp [check_compliance]
  | some .raises => simp [check_compliance]
  | some (.returns docs) =>
    simp [check_compliance]

/-- Claim C9: every prediction record — computed from real data or mock —
has its risk score in [0, 100], its trend among BULLISH/BEARISH/NEUTRAL,
and its signal among BUY/SELL/HOLD. -/
theorem prediction_record_invariants (sym : Json) (env : SymbolEnv) (p : Prediction)
    (h : calculate_technical_indicators sym env = some p) :
    (0 ≤ p.riskScore ∧ p.riskScore ≤ 100) ∧
    (p.trend = "BULLISH" ∨ p.trend = "BEARISH" ∨ p.trend = "NEUTRAL") ∧
    (p.signal = "BUY" ∨ p.signal = "SELL" ∨ p.signal = "HOLD") := by
  rcases ctis_cases sym env p h with hp | ⟨hist, _, hp⟩
  · rw [hp]; exact gmp_invariants sym env.mock
  · rw [hp]; exact indicator_invariants sym hist

/-- Witness for C9 at a concrete input (the mock path). -/
theorem prediction_record_invariants_witness :
    (0 ≤ (generate_mock_prediction (Json.str "A") mock0).riskScore ∧
      (generate_mock_prediction (Json.str "A") mock0).riskScore ≤ 100) ∧
    ((generate_mock_prediction (Json.str "A") mock0).trend = "BULLISH" ∨
      (generate_mock_prediction (Json.str "A") mock0).trend = "BEARISH" ∨
      (generate_mock_prediction (Json.str "A") mock0).trend = "NEUTRAL") ∧
    ((generate_mock_prediction (Json.str "A") mock0).signal = "BUY" ∨
      (generate_mock_prediction (Json.str "A") mock0).signal = "SELL" ∨
      (generate_mock_prediction (Json.str "A") mock0).signal = "HOLD") :=
  prediction_record_invariants (Json.str "A") envMockOnly
    (generate_mock_prediction (Json.str "A") mock0) rfl

/-- Claim C5: when the fetched data has N rows (N ≥ 1), the prediction
record built for the symbol is the indicator record of those rows and its
`dataPoints` field equals N. -/
theorem dataPoints_eq_row_count (sym : Json) (env : SymbolEnv) (closes : List ℝ)
    (h1 : env.tickerRaises = false)
    (h2 : fetchHistory env.a1 env.a2 env.a3 = some closes)
    (h3 : closes ≠ []) :
    calculate_technical_indicators sym env = some (indicatorRecord sym closes) ∧
    (indicatorRecord sym closes).dataPoints = closes.length := by
  refine ⟨?_, rfl⟩
  have he : closes.isEmpty = false := by
    cases closes with
    | nil => exact absurd rfl h3
    | cons hd tl => rfl
  unfold calculate_technical_indicators
  rw [if_neg (by simp [h1]), h2]
  dsimp only
  rw [he]
  simp

/-- Witness for C5 with a concrete two-row series. -/
theorem dataPoints_eq_row_count_witness :
    calculate_technical_indicators (Json.str "AAPL") (envData [1, 2]) =
      some (indicatorRecord (Json.str "AAPL") [1, 2]) ∧
    (indicatorRecord (Json.str "AAPL") [1, 2]).dataPoints = ([(1 : ℝ), 2]).length :=
  dataPoints_eq_row_count (Json.str "AAPL") (envData [1, 2]) [1, 2] rfl rfl (by simp)

/-- Claim C1 counterexample: when all three `history` calls raise,
`calculate_technical_indicators` does NOT substitute mock data — it
returns `None` — and `POST /predict/single` answers 404, not a 200 with a
placeholder record. -/
theorem all_fetch_failures_give_404 :
    predict_single (some (.obj [("symbol", Json.str "AAPL")])) (fun _ => envAllFail) =
      .notFound "Failed to process symbol" := rfl

/-- Claim C1 (amended): mock data is substituted (and served with a 200)
when `yf.Ticker` itself raises or when the fetch yields an empty frame;
but when all three `history` calls raise, the function returns `None`:
`/predict` then answers 200 with an error record for the symbol, and
`/predict/single` answers 404. -/
theorem mock_fallback_and_none_paths (sym : Json) (env : SymbolEnv) :
    (env.tickerRaises = true →
      calculate_technical_indicators sym env = some (generate_mock_prediction sym env.mock)) ∧
    (env.tickerRaises = false → fetchHistory env.a1 env.a2 env.a3 = some [] →
      calculate_technical_indicators sym env = some (generate_mock_prediction sym env.mock) ∧
      predict_single (some (.obj [("symbol", sym)])) (fun _ => env) =
        .ok (generate_mock_prediction sym env.mock)) ∧
    (env.tickerRaises = false → fetchHistory env.a1 env.a2 env.a3 = none →
      calculate_technical_indicators sym env = none ∧
      predict_single (some (.obj [("symbol", sym)])) (fun _ => env) =
        .notFound "Failed to process symbol" ∧
      predict (some (.obj [("stocks", .arr [sym])])) (fun _ => env) =
        .ok [.failed sym]) := by
  have hlookupS : ([(("symbol" : String), sym)]).lookup "symbol" = some sym := by
    simp [List.lookup]
  have hlookupT : ([(("stocks" : String), Json.arr [sym])]).lookup "stocks" =
      some (.arr [sym]) := by
    simp [List.lookup]
  refine ⟨?_, ?_, ?_⟩
  · intro ht
    unfold calculate_technical_indicators
    rw [if_pos ht]
  · intro ht hf
    have hc : calculate_technical_indicators sym env =
        some (generate_mock_prediction sym env.mock) := by
      unfold calculate_technical_indicators
      rw [if_neg (by simp [ht]), hf]
      rfl
    refine ⟨hc, ?_⟩
    rw [predict_single_obj [("symbol", sym)] (fun _ => env) sym hlookupS]
    rw [show calculate_technical_indicators sym ((fun _ => env) sym) =
        some (generate_mock_prediction sym env.mock) from hc]
  · intro ht hf
    have hc : calculate_technical_indicators sym env = none := by
      unfold calculate_technical_indicators
      rw [if_neg (by simp [ht]), hf]
    refine ⟨hc, ?_, ?_⟩
    · rw [predict_single_obj [("symbol", sym)] (fun _ => env) sym hlookupS]
      rw [show calculate_technical_indicators sym ((fun _ => env) sym) = none from hc]
    · rw [predict_obj_ok [("stocks", .arr [sym])] (fun _ => env) [sym] hlookupT (by simp)]
      have : processStock (fun _ => env) sym = .failed sym := by
        unfold processStock
        rw [show calculate_technical_indicators sym ((fun _ => env) sym) = none from hc]
      rw [List.map_cons, List.map_nil, this]

/-- Witness for the amended C1 at concrete inputs (the `Ticker`-raises
path and the all-raise path). -/
theorem mock_fallback_and_none_paths_witness :
    calculate_technical_indicators (Json.str "A") envMockOnly =
      some (generate_mock_prediction (Json.str "A") mock0) ∧
    calculate_technical_indicators (Json.str "A") envAllFail = none :=
  ⟨(mock_fallback_and_none_paths (Json.str "A") envMockOnly).1 rfl,
   ((mock_fallback_and_none_paths (Json.str "A") envAllFail).2.2 rfl rfl).1⟩

/-- Claim C2: for a request body that is an object carrying a 'symbol'
key, `/predict/single` answers 200 with the prediction record exactly when
one is produced, and 404 exactly when none is. -/
theorem predict_single_ok_or_404 (kvs : List (String × Json)) (env : Json → SymbolEnv)
    (sym : Json) (h : kvs.lookup "symbol" = some sym) :
    (∃ p, calculate_technical_indicators sym (env sym) = some p ∧
      predict_single (some (.obj kvs)) env = .ok p) ∨
    (calculate_technical_indicators sym (env sym) = none ∧
      predict_single (some (.obj kvs)) env = .notFound "Failed to process symbol") := by
  rw [predict_single_obj kvs env sym h]
  cases hc : calculate_technical_indicators sym (env sym) with
  | some p => exact Or.inl ⟨p, rfl, rfl⟩
  | none => exact Or.inr ⟨rfl, rfl⟩

/-- Witness for C2 at a concrete request. -/
theorem predict_single_ok_or_404_witness :
    (∃ p, calculate_technical_indicators (Json.str "AAPL") envMockOnly = some p ∧
      predict_single (some (.obj [("symbol", Json.str "AAPL")])) (fun _ => envMockOnly) =
        .ok p) ∨
    (calculate_technical_indicators (Json.str "AAPL") envMockOnly = none ∧
      predict_single (some (.obj [("symbol", Json.str "AAPL")])) (fun _ => envMockOnly) =
        .notFound "Failed to process symbol") :=
  predict_single_ok_or_404 [("symbol", Json.str "AAPL")] (fun _ => envMockOnly)
    (Json.str "AAPL") (by simp [List.lookup])

/-- Claim C3: for a request body that is an object mapping 'stocks' to a
non-empty list, `/predict` answers 200 and the predictions list has
exactly one record per requested symbol, in the same order. -/
theorem predict_one_record_per_symbol (kvs : List (String × Json)) (env : Json → SymbolEnv)
    (stocks : List Json) (h : kvs.lookup "stocks" = some (.arr stocks)) (hne : stocks ≠ []) :
    predict (some (.obj kvs)) env = .ok (stocks.map (processStock env)) ∧
    (stocks.map (processStock env)).length = stocks.length ∧
    ∀ i (hi : i < stocks.length),
      ((stocks.map (processStock env)).get ⟨i, by simpa using hi⟩).symbolOf =
        stocks.get ⟨i, hi⟩ := by
  refine ⟨predict_obj_ok kvs env stocks h hne, by simp, ?_⟩
  intro i hi
  have hp : ∀ s : Json, (processStock env s).symbolOf = s := by
    intro s
    unfold processStock
    cases hc : calculate_technical_indicators s (env s) with
    | none => rfl
    | some p => simpa [PredictItem.symbolOf] using ctis_symbol s (env s) p hc
  simp only [List.get_eq_getElem, List.getElem_map]
  exact hp _

/-- Witness for C3 at a concrete request. -/
theorem predict_one_record_per_symbol_witness :
    predict (some (.obj [("stocks", .arr [Json.str "AAPL"])])) (fun _ => envMockOnly) =
      .ok ([Json.str "AAPL"].map (processStock (fun _ => envMockOnly))) :=
  (predict_one_record_per_symbol [("stocks", .arr [Json.str "AAPL"])] (fun _ => envMockOnly)
    [Json.str "AAPL"] (by simp [List.lookup]) (by simp)).1

/-- Claim C4 counterexample: the JSON body `true` is not falsy and lacks a
'stocks' key, yet `POST /predict` answers 500, not 400 — in the source,
`'stocks' in data` raises `TypeError` for a non-container body and the
generic `except` returns a 500. -/
theorem non_container_body_gives_500 :
    predict (some (.bool true)) (fun _ => envMockOnly) = .serverError := rfl

/-- Claim C4 (amended): malformed bodies yield 400 as claimed for absent
bodies and for object bodies — an absent body, an object lacking the
required key, and an object whose 'stocks' value is not a non-empty list
all give 400 on the two predict endpoints, and an absent body gives 400 on
`/compliance/check` — but a non-container body that is truthy gives 500
(see the counterexample). -/
theorem malformed_bodies_400 (env : Json → SymbolEnv) (store : Option SearchOutcome) :
    (predict none env = .badRequest "Missing stocks field in request") ∧
    (∀ kvs : List (String × Json), kvs.lookup "stocks" = none →
      predict (some (.obj kvs)) env = .badRequest "Missing stocks field in request") ∧
    (∀ (kvs : List (String × Json)) (j : Json), kvs.lookup "stocks" = some j →
      (∀ xs : List Json, j = .arr xs → xs = []) →
      predict (some (.obj kvs)) env = .badRequest "Stocks must be a non-empty list") ∧
    (predict_single none env = .badRequest "Missing symbol field in request") ∧
    (∀ kvs : List (String × Json), kvs.lookup "symbol" = none →
      predict_single (some (.obj kvs)) env = .badRequest "Missing symbol field in request") ∧
    (compliance_check none store = .badRequest "Missing request body") := by
  refine ⟨rfl, ?_, ?_, rfl, ?_, rfl⟩
  · intro kvs h
    cases kvs with
    | nil => rfl
    | cons hd tl =>
      have hany := lookup_none_any (hd :: tl) "stocks" h
      simp only [predict, Json.falsy, List.isEmpty_cons, Bool.false_eq_true, if_false,
        Json.pyHasKey, hany]
  · intro kvs j h hj
    have hkvs : kvs.isEmpty = false := by
      cases kvs with
      | nil => simp [List.lookup] at h
      | cons hd tl => rfl
    have hhk : (Json.obj kvs).pyHasKey "stocks" = .ok true := by
      simp only [Json.pyHasKey, lookup_some_any kvs _ _ h]
    have hgi : (Json.obj kvs).getStrItem "stocks" = .ok j := by
      simp only [Json.getStrItem, h]
    simp only [predict, Json.falsy, hkvs, Bool.false_eq_true, if_false, hhk, hgi]
    cases j with
    | arr xs =>
      have hx := hj xs rfl
      subst hx
      rfl
    | null => rfl
    | bool b => rfl
    | num q => rfl
    | str s => rfl
    | obj kvs2 => rfl
  · intro kvs h
    cases kvs with
    | nil => rfl
    | cons hd tl =>
      have hany := lookup_none_any (hd :: tl) "symbol" h
      simp only [predict_single, Json.falsy, List.isEmpty_cons, Bool.false_eq_true, if_false,
        Json.pyHasKey, hany]

/-- Witness for the amended C4 at concrete requests. -/
theorem malformed_bodies_400_witness :
    predict none (fun _ => envMockOnly) = .badRequest "Missing stocks field in request" ∧
    predict (some (.obj [("a", .num 1)])) (fun _ => envMockOnly) =
      .badRequest "Missing stocks field in request" ∧
    predict (some (.obj [("stocks", .num 1)])) (fun _ => envMockOnly) =
      .badRequest "Stocks must be a non-empty list" ∧
    predict_single (some (.obj [("a", .num 1)])) (fun _ => envMockOnly) =
      .badRequest "Missing symbol field in request" ∧
    compliance_check none none = .badRequest "Missing request body" :=
  ⟨(malformed_bodies_400 (fun _ => envMockOnly) none).1,
   (malformed_bodies_400 (fun _ => envMockOnly) none).2.1 [("a", .num 1)]
     (by simp [List.lookup]),
   (malformed_bodies_400 (fun _ => envMockOnly) none).2.2.1 [("stocks", .num 1)] (.num 1)
     (by simp [List.lookup]) (fun xs hx => by cases hx),
   (malformed_bodies_400 (fun _ => envMockOnly) none).2.2.2.2.1 [("a", .num 1)]
     (by simp [List.lookup]),
   (malformed_bodies_400 (fun _ => envMockOnly) none).2.2.2.2.2⟩

lemma ilocLast_calculate_sma (xs : List ℝ) (w : ℕ) (hne : xs ≠ []) :
    ilocLast (calculate_sma xs w) =
      if w ≤ xs.length then some ((xs.drop (xs.length - w)).sum / (w : ℝ)) else none := by
  obtain ⟨n, hn⟩ : ∃ n, xs.length = n + 1 := by
    cases xs with
    | nil => exact absurd rfl hne
    | cons a l => exact ⟨l.length, rfl⟩
  have htake : xs.take (n + 1) = xs := by
    rw [← hn]
    exact List.take_length xs
  have hget : (calculate_sma xs w).getLast? =
      some (if n + 1 < w then none
            else some (((xs.take (n + 1)).drop (n + 1 - w)).sum / (w : ℝ))) := by
    unfold calculate_sma
    rw [List.getLast?_eq_getElem?]
    rw [List.length_map, List.length_range, hn]
    rw [List.getElem?_map]
    rw [List.getElem?_range (by omega : n + 1 - 1 < n + 1)]
    rfl
  unfold ilocLast
  rw [hget, Option.getD_some, htake]
  by_cases hle : w ≤ xs.length
  · rw [if_pos hle, if_neg (by omega), hn]
  · rw [if_neg hle, if_pos (by omega)]

/-- Claim C6: for a record computed from real fetched data, the sma20
(resp. sma50) field is the arithmetic mean of the 20 (resp. 50) most
recent closing prices whenever the series has at least that many rows, and
null otherwise. -/
theorem sma_fields_are_trailing_means (sym : Json) (closes : List ℝ) (hne : closes ≠ []) :
    ((20 ≤ closes.length →
        (indicatorRecord sym closes).sma20 =
          some ((closes.drop (closes.length - 20)).sum / (20 : ℝ)) ∧
        (closes.drop (closes.length - 20)).length = 20) ∧
      (closes.length < 20 → (indicatorRecord sym closes).sma20 = none)) ∧
    ((50 ≤ closes.length →
        (indicatorRecord sym closes).sma50 =
          some ((closes.drop (closes.length - 50)).sum / (50 : ℝ)) ∧
        (closes.drop (closes.length - 50)).length = 50) ∧
      (closes.length < 50 → (indicatorRecord sym closes).sma50 = none)) := by
  have hs20 : (indicatorRecord sym closes).sma20 = ilocLast (calculate_sma closes 20) := rfl
  have hs50 : (indicatorRecord sym closes).sma50 = ilocLast (calculate_sma closes 50) := rfl
  have h20 := ilocLast_calculate_sma closes 20 hne
  have h50 := ilocLast_calculate_sma closes 50 hne
  refine ⟨⟨?_, ?_⟩, ?_, ?_⟩
  · intro hle
    refine ⟨by rw [hs20, h20, if_pos hle]; norm_num, ?_⟩
    rw [List.length_drop]
    omega
  · intro hlt
    rw [hs20, h20, if_neg (by omega)]
  · intro hle
    refine ⟨by rw [hs50, h50, if_pos hle]; norm_num, ?_⟩
    rw [List.length_drop]
    omega
  · intro hlt
    rw [hs50, h50, if_neg (by omega)]

/-- Witness for C6 on a concrete 50-row series. -/
theorem sma_fields_are_trailing_means_witness :
    20 ≤ (List.replicate 50 (1 : ℝ)).length ∧
    (indicatorRecord (Json.str "A") (List.replicate 50 (1 : ℝ))).sma20 =
      some (((List.replicate 50 (1 : ℝ)).drop ((List.replicate 50 (1 : ℝ)).length - 20)).sum /
        (20 : ℝ)) :=
  ⟨by simp,
   (((sma_fields_are_trailing_means (Json.str "A") (List.replicate 50 (1 : ℝ))
     (by simp)).1.1) (by simp)).1⟩

lemma validValues_pct_change (closes : List ℝ) :
    validValues (pct_change closes) = specDailyReturns closes := by
  cases closes with
  | nil => rfl
  | cons x xs =>
    unfold pct_change specDailyReturns validValues
    rw [List.filterMap_cons_none rfl, List.filterMap_map]
    rw [show List.tail (x :: xs) = xs from rfl]
    rw [show (id ∘ fun p : ℝ × ℝ => some ((p.2 - p.1) / p.1)) =
        (some ∘ fun p : ℝ × ℝ => (p.2 - p.1) / p.1) from rfl]
    rw [List.filterMap_eq_map]

lemma specDailyReturns_length (closes : List ℝ) :
    (specDailyReturns closes).length = closes.length - 1 := by
  cases closes with
  | nil => rfl
  | cons x xs =>
    unfold specDailyReturns
    rw [List.length_map, List.length_zip]
    simp

/-- Claim C7: the volatility field of a record computed from real fetched
data is the annualized standard deviation of the daily returns — the
sample standard deviation of the day-over-day percentage changes of the
closing prices, multiplied by sqrt(252). -/
theorem volatility_is_annualized_std (sym : Json) (closes : List ℝ)
    (h : 3 ≤ closes.length) :
    (indicatorRecord sym closes).volatility = some (specAnnualizedVolatility closes) := by
  have hv : (indicatorRecord sym closes).volatility =
      (seriesStd (pct_change closes)).map (fun s => s * Real.sqrt 252) := rfl
  rw [hv]
  unfold seriesStd
  rw [validValues_pct_change]
  rw [if_neg (by rw [specDailyReturns_length]; omega)]
  rfl

/-- Witness for C7 on a concrete three-row series. -/
theorem volatility_is_annualized_std_witness :
    3 ≤ ([(1 : ℝ), 2, 4]).length ∧
    (indicatorRecord (Json.str "A") [(1 : ℝ), 2, 4]).volatility =
      some (specAnnualizedVolatility [(1 : ℝ), 2, 4]) :=
  ⟨by simp, volatility_is_annualized_std (Json.str "A") [(1 : ℝ), 2, 4] (by simp)⟩

end RiskApprove
